import Mathlib

/-!
Verification development for the Sisyphus daily boulder-pushing server.

The definitions below are a shallow embedding of the server's core logic:

* `src/server/src/utils/date.ts` — pure date arithmetic over `YYYY-MM-DD`
  strings (`isValidDateString`, `isSameDay`, `isConsecutiveDay`,
  `daysBetween`).  JavaScript `Date` objects anchored at UTC midnight are
  modelled by `(year, month, day)` triples together with a Gregorian
  day-count (`toRataDie`); `setUTCDate(d + 1)` on a valid date is modelled
  by `addOneDay`.
* `src/server/src/db/queries.ts` — the store (`players`, `daily_plays`,
  `deaths` tables) and the transactional mutators `recordPush` /
  `recordDeath`.  Timestamp columns (`created_at`, `played_at`, `died_at`,
  `last_seen_at`) are not referenced by any property considered here and
  are omitted; a single player's slice of the store is modelled.
* `src/server/src/routes/push.ts` — the POST `/api/push` handler after
  header / rate-limit / body / date validation (`pushHandler`), and the
  POST `/api/push/acknowledge-rollback` handler (`acknowledgeHandler`).
* `src/server/src/routes/player.ts` — the GET `/api/player` handler for an
  existing player (`getHandler`).  The JavaScript expression
  `player.last_played_date && localDate <= player.last_played_date`
  evaluates to `null` when `last_played_date` is `null`, so the serialized
  `hasPlayedToday` field is modelled by the JSON value type `JVal`.
-/

/-! ### Date arithmetic (src/server/src/utils/date.ts) -/

/-- Numeric value of a decimal digit character, `none` otherwise. -/
def digitVal (c : Char) : Option Nat :=
  if c.isDigit then some (c.toNat - 48) else none

/-- Parse a string of the exact shape `YYYY-MM-DD` (the anchored regular
expression `\d{4}-\d{2}-\d{2}` of `isValidDateString`) into a
`(year, month, day)` triple.  No range check is performed here. -/
def parseYMD (s : String) : Option (Nat × Nat × Nat) :=
  match s.data with
  | [y1, y2, y3, y4, c1, m1, m2, c2, d1, d2] =>
    if c1 == '-' && c2 == '-' then
      match digitVal y1, digitVal y2, digitVal y3, digitVal y4,
            digitVal m1, digitVal m2, digitVal d1, digitVal d2 with
      | some a, some b, some c, some e, some f, some g, some h, some i =>
          some (a * 1000 + b * 100 + c * 10 + e, f * 10 + g, h * 10 + i)
      | _, _, _, _, _, _, _, _ => none
    else none
  | _ => none

/-- Gregorian leap-year rule used by JavaScript `Date` UTC arithmetic. -/
def isLeapYear (y : Nat) : Bool :=
  (y % 4 == 0 && y % 100 != 0) || (y % 400 == 0)

/-- Number of days in month `m` of year `y`. -/
def daysInMonth (y m : Nat) : Nat :=
  if m == 2 then (if isLeapYear y then 29 else 28)
  else if m == 4 || m == 6 || m == 9 || m == 11 then 30
  else 31

/-- Cumulative days before month `m` in a non-leap year. -/
def monthOffset : Nat → Nat
  | 1 => 0 | 2 => 31 | 3 => 59 | 4 => 90 | 5 => 120 | 6 => 151
  | 7 => 181 | 8 => 212 | 9 => 243 | 10 => 273 | 11 => 304 | 12 => 334
  | _ => 0

/-- Cumulative days before month `m` of year `y`. -/
def daysBeforeMonth (y m : Nat) : Nat :=
  monthOffset m + (if 3 ≤ m && isLeapYear y then 1 else 0)

/-- Days in years `0, …, y - 1` (year 0 is a leap year). -/
def daysBeforeYear (y : Nat) : Nat :=
  365 * y + (y + 3) / 4 - (y + 99) / 100 + (y + 399) / 400

/-- Day count of a `(year, month, day)` triple: the number of days since
`0000-01-01`.  Differences of `toRataDie` coincide with differences of the
JavaScript UTC-midnight epoch milliseconds divided by 86 400 000. -/
def toRataDie : Nat × Nat × Nat → Nat
  | (y, m, d) => daysBeforeYear y + daysBeforeMonth y m + (d - 1)

/-- Model of `d.setUTCDate(d.getUTCDate() + 1)` on a valid UTC date. -/
def addOneDay : Nat × Nat × Nat → Nat × Nat × Nat
  | (y, m, d) =>
    if d < daysInMonth y m then (y, m, d + 1)
    else if m < 12 then (y, m + 1, 1)
    else (y + 1, 1, 1)

/-- Model of `isValidDateString`: the string matches `YYYY-MM-DD` and its
components form a real calendar date (a JavaScript `Date` built from an
out-of-range ISO string is `Invalid Date`). -/
def isValidDateString (s : String) : Bool :=
  match parseYMD s with
  | some (y, m, d) => 1 ≤ m && m ≤ 12 && 1 ≤ d && d ≤ daysInMonth y m
  | none => false

/-- Model of `isSameDay`: literal string equality. -/
def isSameDay (date1 date2 : String) : Bool :=
  date1 == date2

/-- Model of `isConsecutiveDay` on valid date strings: add one day to
`earlier` and compare with `later` (the source compares the
`toISOString` date parts, which on valid dates is equality of the
`(year, month, day)` triples). -/
def isConsecutiveDay (earlier later : String) : Bool :=
  match parseYMD earlier, parseYMD later with
  | some t1, some t2 => addOneDay t1 == t2
  | _, _ => false

/-- Model of `daysBetween` on valid date strings: signed day difference
`later - earlier` (the source divides the millisecond difference of two
UTC midnights by 86 400 000 and floors; the quotient is exact). -/
def daysBetween (earlier later : String) : Int :=
  match parseYMD earlier, parseYMD later with
  | some t1, some t2 => (toRataDie t2 : Int) - (toRataDie t1 : Int)
  | _, _ => 0

/-- JavaScript UTF-16 lexicographic `<` on strings (all date strings are
ASCII, where code-unit order is character order). -/
def strLt : List Char → List Char → Bool
  | [], [] => false
  | [], _ :: _ => true
  | _ :: _, [] => false
  | a :: as, b :: bs =>
      if a < b then true else if b < a then false else strLt as bs

/-- JavaScript `a <= b` on strings. -/
def jsLe (a b : String) : Bool :=
  !(strLt b.data a.data)

/-! ### Data model (src/server/src/db/queries.ts, initDatabase defaults) -/

/-- A row of the `players` table (timestamp columns omitted, identity
implicit: the store below is one player's slice of the database). -/
structure Player where
  height : Nat
  streak : Nat
  lastPlayedDate : Option String
  totalPushes : Nat
  maxHeight : Nat
  deathCount : Nat
deriving DecidableEq, Repr

/-- A row of the `deaths` table for this player. -/
structure Death where
  heightLost : Nat
  streakLost : Nat
  daysMissed : Int
deriving DecidableEq, Repr

/-- One player's slice of the database: the player row, the player's
`daily_plays` dates (append-only), and the player's `deaths` rows
(append-only). -/
structure Store where
  player : Player
  plays : List String
  deaths : List Death
deriving DecidableEq, Repr

/-- State produced by `createPlayer` (the `players` table defaults). -/
def initStore : Store :=
  { player := { height := 0, streak := 0, lastPlayedDate := none,
                totalPushes := 0, maxHeight := 0, deathCount := 0 },
    plays := [], deaths := [] }

/-- Model of `hasPlayedDate`: is there a `daily_plays` row for this date? -/
def hasPlayedDate (s : Store) (playDate : String) : Bool :=
  s.plays.contains playDate

/-- Model of `recordPush`: in one transaction, update the player row
(`height`, `streak`, `last_played_date`, `total_pushes + 1`,
`max_height = MAX(max_height, newHeight)`) and insert the
`daily_plays` row. -/
def recordPush (s : Store) (playDate : String) (newHeight newStreak : Nat) :
    Store :=
  { player := { s.player with
      height := newHeight, streak := newStreak,
      lastPlayedDate := some playDate,
      totalPushes := s.player.totalPushes + 1,
      maxHeight := max s.player.maxHeight newHeight },
    plays := s.plays ++ [playDate],
    deaths := s.deaths }

/-- Model of `recordDeath`: in one transaction, insert a `deaths` row and
reset the player row (`height = 0`, `streak = 0`,
`death_count = death_count + 1`). -/
def recordDeath (s : Store) (heightLost streakLost : Nat) (daysMissed : Int) :
    Store :=
  { player := { s.player with
      height := 0, streak := 0,
      deathCount := s.player.deathCount + 1 },
    plays := s.plays,
    deaths := s.deaths ++
      [{ heightLost := heightLost, streakLost := streakLost,
         daysMissed := daysMissed }] }

/-! ### Route handlers (src/server/src/routes/push.ts, player.ts) -/

/-- Store-level outcome of POST `/api/push` (after header, rate-limit,
body and date validation, none of which touches the store). -/
inductive PushResult where
  | alreadyPlayed
  | rollbackRequired (heightLost streakLost : Nat) (daysMissed : Int)
  | success (height streak : Nat)
deriving DecidableEq, Repr

/-- The Advance branch of the push handler. -/
def advancePush (s : Store) (localDate : String) : PushResult × Store :=
  let newHeight := s.player.height + 1
  let newStreak := s.player.streak + 1
  (PushResult.success newHeight newStreak,
   recordPush s localDate newHeight newStreak)

/-- Model of the POST `/api/push` handler body, from the
`hasPlayedDate` check onwards (`localDate` has passed
`isValidDateString`; rate limiting and validation touch no store state).
The rollback guard is the source conjunction
`player.last_played_date && player.height > 0 &&
!isSameDay(...) && !isConsecutiveDay(...)`. -/
def pushHandler (s : Store) (localDate : String) : PushResult × Store :=
  if hasPlayedDate s localDate then
    (PushResult.alreadyPlayed, s)
  else
    match s.player.lastPlayedDate with
    | some lp =>
        if decide (0 < s.player.height) && !(isSameDay lp localDate)
            && !(isConsecutiveDay lp localDate) then
          let daysMissed := daysBetween lp localDate - 1
          (PushResult.rollbackRequired s.player.height s.player.streak
             daysMissed,
           recordDeath s s.player.height s.player.streak daysMissed)
        else advancePush s localDate
    | none => advancePush s localDate

/-- Model of the POST `/api/push/acknowledge-rollback` handler: if
`height > 0` record a death (which also resets the row), then return the
re-fetched `height` and `streak`. -/
def acknowledgeHandler (s : Store) : (Nat × Nat) × Store :=
  let s' := if 0 < s.player.height then
      recordDeath s s.player.height s.player.streak 1
    else s
  ((s'.player.height, s'.player.streak), s')

/-- A JSON value as serialized by `c.json` for the `hasPlayedToday`
field, which the handler computes with JavaScript `&&` and so can be
`null` rather than a boolean. -/
inductive JVal where
  | jnull
  | jbool (b : Bool)
deriving DecidableEq, Repr

/-- The GET `/api/player` response body. -/
structure StateResp where
  height : Nat
  streak : Nat
  lastPlayedDate : Option String
  hasPlayedToday : JVal
  needsRollback : Bool
  previousHeight : Nat
  totalPushes : Nat
  maxHeight : Nat
  deathCount : Nat
deriving DecidableEq, Repr

/-- Model of the GET `/api/player` handler for an existing player
(`isNew = false`), after date validation.  `hasPlayedToday` is the raw
value of `player.last_played_date && localDate <= player.last_played_date`
(`null` when `last_played_date` is `null`); `needsRollback` additionally
requires `height > 0` and a non-consecutive forward date. -/
def getHandler (p : Player) (localDate : String) : StateResp :=
  let isBeforeOrSame : JVal :=
    match p.lastPlayedDate with
    | none => JVal.jnull
    | some lp => JVal.jbool (jsLe localDate lp)
  let needsRb : Bool :=
    match p.lastPlayedDate with
    | none => false
    | some lp =>
        decide (0 < p.height) && !(jsLe localDate lp)
          && !(isConsecutiveDay lp localDate)
  { height := p.height, streak := p.streak,
    lastPlayedDate := p.lastPlayedDate,
    hasPlayedToday := isBeforeOrSame,
    needsRollback := needsRb,
    previousHeight := if needsRb then p.height else 0,
    totalPushes := p.totalPushes, maxHeight := p.maxHeight,
    deathCount := p.deathCount }

/-! ### Operations -/

/-- One store-affecting client operation against a player's slice. -/
inductive Op where
  | push (localDate : String)
  | acknowledge
  | getState (localDate : String)
deriving DecidableEq, Repr

/-- Effect of one operation on the store (GET reads only). -/
def applyOp (s : Store) : Op → Store
  | Op.push d => (pushHandler s d).2
  | Op.acknowledge => (acknowledgeHandler s).2
  | Op.getState _ => s

/-- Run a list of operations left to right. -/
def runOps (s : Store) : List Op → Store
  | [] => s
  | op :: rest => runOps (applyOp s op) rest

/-- The invariant of claim C5. -/
def storeInv (s : Store) : Prop :=
  s.player.height ≤ s.player.maxHeight

instance (s : Store) : Decidable (storeInv s) :=
  inferInstanceAs (Decidable (_ ≤ _))

/-! ### Date arithmetic lemmas -/

theorem isLeapYear_iff (y : Nat) :
    isLeapYear y = true ↔ ((y % 4 = 0 ∧ y % 100 ≠ 0) ∨ y % 400 = 0) := by
  simp [isLeapYear]

set_option maxHeartbeats 1000000 in
theorem daysBeforeYear_succ (y : Nat) :
    daysBeforeYear (y + 1) =
      daysBeforeYear y + (if isLeapYear y then 366 else 365) := by
  by_cases hL : isLeapYear y = true
  · rw [if_pos hL]
    have h := (isLeapYear_iff y).mp hL
    clear hL
    unfold daysBeforeYear
    omega
  · rw [if_neg hL]
    have h : ¬ ((y % 4 = 0 ∧ y % 100 ≠ 0) ∨ y % 400 = 0) :=
      fun hc => hL ((isLeapYear_iff y).mpr hc)
    clear hL
    unfold daysBeforeYear
    omega

theorem daysBeforeMonth_succ (y m : Nat) (h1 : 1 ≤ m) (h2 : m ≤ 11) :
    daysBeforeMonth y (m + 1) = daysBeforeMonth y m + daysInMonth y m := by
  interval_cases m <;>
    cases h : isLeapYear y <;>
      simp [daysBeforeMonth, monthOffset, daysInMonth, h]

theorem toRataDie_eq (y m d : Nat) :
    toRataDie (y, m, d) = daysBeforeYear y + daysBeforeMonth y m + (d - 1) :=
  rfl

theorem daysInMonth_pos (y m : Nat) : 1 ≤ daysInMonth y m := by
  unfold daysInMonth
  split
  · split <;> omega
  · split <;> omega

theorem toRataDie_addOneDay (y m d : Nat) (hm1 : 1 ≤ m) (hm2 : m ≤ 12)
    (hd1 : 1 ≤ d) (hd2 : d ≤ daysInMonth y m) :
    toRataDie (addOneDay (y, m, d)) = toRataDie (y, m, d) + 1 := by
  by_cases hlt : d < daysInMonth y m
  · have ha : addOneDay (y, m, d) = (y, m, d + 1) := by
      simp [addOneDay, hlt]
    rw [ha, toRataDie_eq, toRataDie_eq]
    omega
  · by_cases hm : m < 12
    · have ha : addOneDay (y, m, d) = (y, m + 1, 1) := by
        simp [addOneDay, hlt, hm]
      rw [ha, toRataDie_eq, toRataDie_eq]
      have hd : d = daysInMonth y m := by omega
      have hstep := daysBeforeMonth_succ y m hm1 (by omega)
      have hdim := daysInMonth_pos y m
      omega
    · have hm12 : m = 12 := by omega
      subst hm12
      have hdim : daysInMonth y 12 = 31 := rfl
      have hd31 : d = 31 := by omega
      subst hd31
      have ha : addOneDay (y, 12, 31) = (y + 1, 1, 1) := by
        simp [addOneDay, hdim]
      rw [ha, toRataDie_eq, toRataDie_eq]
      have h1 : daysBeforeMonth (y + 1) 1 = 0 := rfl
      have h12 : daysBeforeMonth y 12 = 334 + (if isLeapYear y then 1 else 0) := by
        simp [daysBeforeMonth, monthOffset]
      have hy := daysBeforeYear_succ y
      cases h : isLeapYear y <;> simp [h] at hy h12 <;> omega

theorem isValidDateString_parse (s : String)
    (h : isValidDateString s = true) :
    ∃ y m d, parseYMD s = some (y, m, d) ∧
      1 ≤ m ∧ m ≤ 12 ∧ 1 ≤ d ∧ d ≤ daysInMonth y m := by
  unfold isValidDateString at h
  cases hp : parseYMD s with
  | none => rw [hp] at h; exact absurd h (by simp)
  | some t =>
      obtain ⟨y, m, d⟩ := t
      rw [hp] at h
      simp only [Bool.and_eq_true, decide_eq_true_eq] at h
      exact ⟨y, m, d, rfl, h.1.1.1, h.1.1.2, h.1.2, h.2⟩

theorem daysBetween_eq (a b : String) (t1 t2 : Nat × Nat × Nat)
    (ha : parseYMD a = some t1) (hb : parseYMD b = some t2) :
    daysBetween a b = (toRataDie t2 : Int) - (toRataDie t1 : Int) := by
  unfold daysBetween
  rw [ha, hb]

theorem daysBetween_self (a : String) (ha : isValidDateString a = true) :
    daysBetween a a = 0 := by
  obtain ⟨y, m, d, hp, _⟩ := isValidDateString_parse a ha
  rw [daysBetween_eq a a (y, m, d) (y, m, d) hp hp]
  omega

theorem isConsecutiveDay_daysBetween (a b : String)
    (ha : isValidDateString a = true) (h : isConsecutiveDay a b = true) :
    daysBetween a b = 1 := by
  obtain ⟨y, m, d, hp, hm1, hm2, hd1, hd2⟩ := isValidDateString_parse a ha
  unfold isConsecutiveDay at h
  rw [hp] at h
  cases hq : parseYMD b with
  | none => rw [hq] at h; exact absurd h (by simp)
  | some t2 =>
      rw [hq] at h
      have ht2 : addOneDay (y, m, d) = t2 := by
        simpa using h
      have hr := toRataDie_addOneDay y m d hm1 hm2 hd1 hd2
      rw [ht2] at hr
      rw [daysBetween_eq a b (y, m, d) t2 hp hq]
      omega

theorem strLt_self (l : List Char) : strLt l l = false := by
  induction l with
  | nil => rfl
  | cons a as ih =>
      simp [strLt, ih]

theorem jsLe_self (a : String) : jsLe a a = true := by
  simp [jsLe, strLt_self]

/-! ### Concrete reachable states used by counterexamples and witnesses -/

/-- A fresh player after one successful push on 2024-01-01
(`height = 1`, `streak = 1`, `lastPlayedDate = 2024-01-01`). -/
def pushedOnce : Store := (pushHandler initStore "2024-01-01").2

/-- A fresh player after one successful push on 2024-01-10. -/
def pushedTen : Store := (pushHandler initStore "2024-01-10").2

/-- The store after `pushedOnce` attempts a push on 2024-01-03 (a
two-day gap, so the attempt reports `rollback_required`). -/
def deadStore : Store := (pushHandler pushedOnce "2024-01-03").2

/-! ### Claim theorems -/

/-- C8: `isConsecutiveDay "2024-01-31" "2024-02-01"` returns `true`, and
`isConsecutiveDay "2024-02-28" "2024-03-01"` returns `false` (2024 is a
leap year, so February has 29 days and 2024-03-01 is two days after
2024-02-28), under UTC-anchored one-day addition. -/
theorem isConsecutiveDay_boundary_examples :
    isConsecutiveDay "2024-01-31" "2024-02-01" = true ∧
    isConsecutiveDay "2024-02-28" "2024-03-01" = false := by
  decide

/-- C5: after every operation (register, push, acknowledge, state read)
the invariant `height ≤ maxHeight` is preserved and `maxHeight` never
decreases; registration establishes the invariant. -/
theorem height_le_maxHeight_invariant :
    storeInv initStore ∧
    ∀ (s : Store) (op : Op), storeInv s →
      storeInv (applyOp s op) ∧
      s.player.maxHeight ≤ (applyOp s op).player.maxHeight := by
  constructor
  · exact Nat.le_refl 0
  · intro s op hinv
    cases op with
    | getState d => exact ⟨hinv, Nat.le_refl _⟩
    | acknowledge =>
        simp only [applyOp, acknowledgeHandler]
        split
        · exact ⟨Nat.zero_le _, Nat.le_refl _⟩
        · exact ⟨hinv, Nat.le_refl _⟩
    | push d =>
        simp only [applyOp, pushHandler]
        split
        · exact ⟨hinv, Nat.le_refl _⟩
        · split
          · split
            · exact ⟨Nat.zero_le _, Nat.le_refl _⟩
            · exact ⟨le_max_right _ _, le_max_left _ _⟩
          · exact ⟨le_max_right _ _, le_max_left _ _⟩

/-- Witness for C5 at a concrete store and operation. -/
theorem height_le_maxHeight_invariant_witness :
    storeInv (applyOp pushedOnce (Op.push "2024-01-02")) ∧
    pushedOnce.player.maxHeight ≤
      (applyOp pushedOnce (Op.push "2024-01-02")).player.maxHeight :=
  height_le_maxHeight_invariant.2 pushedOnce (Op.push "2024-01-02")
    (by decide)

/-- C6: acknowledging with `height > 0` appends exactly one death row and
resets the player (`height = 0`, `streak = 0`, `deathCount + 1`); the
call is idempotent: acknowledging again (height now 0) changes nothing
and appends no further death row. -/
theorem acknowledge_resets_and_is_idempotent :
    ∀ s : Store, 0 < s.player.height →
      (acknowledgeHandler s).2.deaths =
        s.deaths ++ [{ heightLost := s.player.height,
                       streakLost := s.player.streak, daysMissed := 1 }] ∧
      (acknowledgeHandler s).2.player.height = 0 ∧
      (acknowledgeHandler s).2.player.streak = 0 ∧
      (acknowledgeHandler s).2.player.deathCount =
        s.player.deathCount + 1 ∧
      acknowledgeHandler (acknowledgeHandler s).2 =
        ((0, 0), (acknowledgeHandler s).2) := by
  intro s h
  simp [acknowledgeHandler, recordDeath, h]

/-- Witness for C6 at a concrete store with positive height. -/
theorem acknowledge_resets_and_is_idempotent_witness :
    (acknowledgeHandler pushedOnce).2.player.height = 0 ∧
    (acknowledgeHandler pushedOnce).2.player.streak = 0 ∧
    acknowledgeHandler (acknowledgeHandler pushedOnce).2 =
      ((0, 0), (acknowledgeHandler pushedOnce).2) :=
  ⟨(acknowledge_resets_and_is_idempotent pushedOnce (by decide)).2.1,
   (acknowledge_resets_and_is_idempotent pushedOnce (by decide)).2.2.1,
   (acknowledge_resets_and_is_idempotent pushedOnce (by decide)).2.2.2.2⟩

/-- C7: with `lastPlayedDate` present and the claimed date consecutive to
it (or the player at height 0), a push whose date is not already in the
push ledger succeeds and performs exactly `height + 1`, `streak + 1`,
`lastPlayedDate := claimedDate`, `totalPushes + 1`,
`maxHeight := max maxHeight (height + 1)`, and appends the ledger row. -/
theorem advance_push_effects :
    ∀ (s : Store) (lp d : String),
      s.player.lastPlayedDate = some lp →
      (isConsecutiveDay lp d = true ∨ s.player.height = 0) →
      hasPlayedDate s d = false →
      pushHandler s d =
        (PushResult.success (s.player.height + 1) (s.player.streak + 1),
         { s with
           player := { s.player with
             height := s.player.height + 1,
             streak := s.player.streak + 1,
             lastPlayedDate := some d,
             totalPushes := s.player.totalPushes + 1,
             maxHeight := max s.player.maxHeight (s.player.height + 1) },
           plays := s.plays ++ [d] }) := by
  intro s lp d hlp hcase hnp
  have hguard : (decide (0 < s.player.height) && !(isSameDay lp d)
      && !(isConsecutiveDay lp d)) = false := by
    rcases hcase with hc | h0
    · simp [hc]
    · simp [h0]
  simp [pushHandler, hnp, hlp, hguard, advancePush, recordPush]

/-- Witness for C7: a consecutive-day push on a concrete store. -/
theorem advance_push_effects_witness :
    (pushHandler pushedOnce "2024-01-02").1 = PushResult.success 2 2 := by
  rw [advance_push_effects pushedOnce "2024-01-01" "2024-01-02"
    (by decide) (Or.inl (by decide)) (by decide)]
  decide

/-- C10: the acknowledge operation resets any player with `height > 0`,
with no check that a rollback is pending: even a player whose
`lastPlayedDate` equals the claimed current date (for whom the state
read reports `needsRollback = false`) is reset to `height = 0`,
`streak = 0`, and the recorded death row always has `daysMissed = 1`. -/
theorem acknowledge_unconditional_reset :
    ∀ (s : Store) (d : String),
      s.player.lastPlayedDate = some d →
      0 < s.player.height →
      (getHandler s.player d).needsRollback = false ∧
      (acknowledgeHandler s).2.deaths =
        s.deaths ++ [{ heightLost := s.player.height,
                       streakLost := s.player.streak, daysMissed := 1 }] ∧
      (acknowledgeHandler s).2.player.height = 0 ∧
      (acknowledgeHandler s).2.player.streak = 0 ∧
      (acknowledgeHandler s).2.player.deathCount =
        s.player.deathCount + 1 := by
  intro s d hlp hh
  refine ⟨?_, ?_⟩
  · simp [getHandler, hlp, jsLe_self]
  · simp [acknowledgeHandler, recordDeath, hh]

/-- Witness for C10: a player who pushed on the claimed date. -/
theorem acknowledge_unconditional_reset_witness :
    (getHandler pushedOnce.player "2024-01-01").needsRollback = false ∧
    (acknowledgeHandler pushedOnce).2.player.height = 0 :=
  ⟨(acknowledge_unconditional_reset pushedOnce "2024-01-01" (by decide)
      (by decide)).1,
   (acknowledge_unconditional_reset pushedOnce "2024-01-01" (by decide)
      (by decide)).2.2.1⟩

/-- Counterexample to C1 as stated: a push attempt on 2024-01-03 by a
player whose last play was 2024-01-01 returns the error
`rollback_required`, yet the store is changed by that very request: the
player's height drops from 1 to 0 and a death row is appended, without
any acknowledge call. -/
theorem push_error_mutates_store_cex :
    (pushHandler pushedOnce "2024-01-03").1 =
      PushResult.rollbackRequired 1 1 1 ∧
    (pushHandler pushedOnce "2024-01-03").2 ≠ pushedOnce ∧
    pushedOnce.player.height = 1 ∧
    (pushHandler pushedOnce "2024-01-03").2.player.height = 0 ∧
    pushedOnce.deaths = [] ∧
    (pushHandler pushedOnce "2024-01-03").2.deaths ≠ [] := by
  decide

/-- C1 (amended): an `already_played_today` error leaves the store
unchanged, but a push attempt that returns `rollback_required` is not
read-only: in the same transaction it records the DeathEvent and resets
the Player row (`height = 0`, `streak = 0`, `deathCount + 1`), so the
subsequent explicit acknowledge is a no-op. -/
theorem error_response_store_effects :
    ∀ (s : Store) (d : String),
      ((pushHandler s d).1 = PushResult.alreadyPlayed →
        (pushHandler s d).2 = s) ∧
      (∀ h st dm,
        (pushHandler s d).1 = PushResult.rollbackRequired h st dm →
        (pushHandler s d).2 = recordDeath s h st dm ∧
        (pushHandler s d).2.player.height = 0 ∧
        (pushHandler s d).2.player.streak = 0 ∧
        (pushHandler s d).2.player.deathCount = s.player.deathCount + 1 ∧
        (acknowledgeHandler (pushHandler s d).2).2 =
          (pushHandler s d).2) := by
  intro s d
  unfold pushHandler
  split
  · constructor
    · intro _; rfl
    · intro h st dm hr
      exact absurd hr (by simp)
  · split
    · split
      · constructor
        · intro hc
          exact absurd hc (by simp)
        · intro h st dm hr
          simp only [Prod.fst] at hr
          injection hr with e1 e2 e3
          subst e1; subst e2; subst e3
          refine ⟨rfl, rfl, rfl, rfl, ?_⟩
          simp [acknowledgeHandler, recordDeath]
      · constructor
        · intro hc
          exact absurd hc (by simp [advancePush])
        · intro h st dm hr
          exact absurd hr (by simp [advancePush])
    · constructor
      · intro hc
        exact absurd hc (by simp [advancePush])
      · intro h st dm hr
        exact absurd hr (by simp [advancePush])

/-- Witness for C1 (amended) at the concrete rollback-detecting push. -/
theorem error_response_store_effects_witness :
    (pushHandler pushedOnce "2024-01-03").2 =
      recordDeath pushedOnce 1 1 1 :=
  ((error_response_store_effects pushedOnce "2024-01-03").2 1 1 1
    (by decide)).1

/-- Counterexample to C2 as stated: `pushedTen` last played 2024-01-10;
the claimed date 2024-01-05 is five days earlier (so `claimedDate <=
lastPlayedDate`), yet because 2024-01-05 has no push-ledger entry the
push is answered with `rollback_required` (with a negative `daysMissed`)
and the request mutates state: the player is reset and a death row is
appended. -/
theorem backward_date_mutates_cex :
    pushedTen.player.lastPlayedDate = some "2024-01-10" ∧
    jsLe "2024-01-05" "2024-01-10" = true ∧
    daysBetween "2024-01-10" "2024-01-05" = -5 ∧
    (pushHandler pushedTen "2024-01-05").1 =
      PushResult.rollbackRequired 1 1 (-6) ∧
    (pushHandler pushedTen "2024-01-05").2.player.height ≠
      pushedTen.player.height ∧
    (pushHandler pushedTen "2024-01-05").2.deaths ≠ pushedTen.deaths := by
  decide

/-- C2 (amended): a push whose claimed date is already recorded in the
player's push ledger — which covers every same-day retry, since a
successful push records its date — is rejected with
`already_played_today` and mutates nothing; a backward claimed date
that is absent from the ledger is not protected by this rule (with
`height > 0` it produces `rollback_required` and a mutating reset). -/
theorem ledger_date_push_rejected_unchanged :
    ∀ (s : Store) (d : String),
      hasPlayedDate s d = true →
      pushHandler s d = (PushResult.alreadyPlayed, s) := by
  intro s d h
  simp [pushHandler, h]

/-- Witness for C2 (amended): a same-day retry on a concrete store. -/
theorem ledger_date_push_rejected_unchanged_witness :
    pushHandler pushedOnce "2024-01-01" =
      (PushResult.alreadyPlayed, pushedOnce) :=
  ledger_date_push_rejected_unchanged pushedOnce "2024-01-01" (by decide)

/-- Counterexample to C3 as stated: after a push attempt detects the
rollback (`pushedOnce` pushing on 2024-01-03), the player does NOT
remain in the RollbackRequired state even though acknowledge was never
called: the next state read reports `needsRollback = false` and the
next push attempt with the same claimed date succeeds instead of
reporting rollback-required. -/
theorem rollback_not_sticky_after_push_cex :
    (pushHandler pushedOnce "2024-01-03").1 =
      PushResult.rollbackRequired 1 1 1 ∧
    (getHandler deadStore.player "2024-01-03").needsRollback = false ∧
    (pushHandler deadStore "2024-01-03").1 = PushResult.success 1 1 := by
  decide

/-- C3 (amended): a state read never mutates the store, so a rollback
detected only by reads keeps being reported until some write arrives;
but a push attempt that detects the rollback immediately resets the
player (height 0), after which reads report `needsRollback = false` and
a retry of the same claimed date succeeds with `height = streak = 1`. -/
theorem rollback_detection_persistence :
    ∀ (s : Store) (d : String),
      applyOp s (Op.getState d) = s ∧
      (∀ h st dm s2,
        pushHandler s d = (PushResult.rollbackRequired h st dm, s2) →
        s2.player.height = 0 ∧
        (getHandler s2.player d).needsRollback = false ∧
        (pushHandler s2 d).1 = PushResult.success 1 1) := by
  intro s d
  refine ⟨rfl, ?_⟩
  intro h st dm s2 hr
  unfold pushHandler at hr
  split at hr
  · exact absurd hr (by simp)
  · rename_i hnp
    have hnp' : hasPlayedDate s d = false := by
      simpa using hnp
    split at hr
    · rename_i lp hlp
      split at hr
      · have hs2 : s2 =
            recordDeath s s.player.height s.player.streak
              (daysBetween lp d - 1) := by
          have hsnd := congrArg Prod.snd hr
          simpa using hsnd.symm
        subst hs2
        refine ⟨rfl, ?_, ?_⟩
        · simp [getHandler, recordDeath, hlp]
        · have hmem : d ∉ s.plays := by
            simpa [hasPlayedDate] using hnp'
          simp [pushHandler, hasPlayedDate, recordDeath, hlp, advancePush,
            hmem]
      · exact absurd hr (by simp [advancePush])
    · exact absurd hr (by simp [advancePush])

/-- Witness for C3 (amended) at the concrete rollback-detecting push. -/
theorem rollback_detection_persistence_witness :
    deadStore.player.height = 0 ∧
    (getHandler deadStore.player "2024-01-03").needsRollback = false ∧
    (pushHandler deadStore "2024-01-03").1 = PushResult.success 1 1 :=
  (rollback_detection_persistence pushedOnce "2024-01-03").2 1 1 1
    deadStore (by decide)

/-- A reachable state whose push ledger contains a date two days after
`lastPlayedDate`: push on 2024-01-10, miss a day and die on the
2024-01-12 attempt (reset, `lastPlayedDate` still 2024-01-10), then
push at height 0 on the backward date 2024-01-08. -/
def c4State : Store :=
  runOps initStore
    [Op.push "2024-01-10", Op.push "2024-01-12", Op.push "2024-01-08"]

/-- Counterexample to C4 as stated: `c4State` has
`lastPlayedDate = 2024-01-08`, `height = 1 > 0`, and the claimed date
2024-01-10 is exactly two days later, yet the push is rejected with
`already_played_today` (the ledger already holds 2024-01-10), not with
`rollback_required`. -/
theorem gap_push_already_played_cex :
    c4State.player.lastPlayedDate = some "2024-01-08" ∧
    c4State.player.height = 1 ∧
    daysBetween "2024-01-08" "2024-01-10" = 2 ∧
    (pushHandler c4State "2024-01-10").1 = PushResult.alreadyPlayed ∧
    (pushHandler c4State "2024-01-10").2 = c4State := by
  decide

/-- C4 (amended): for a player with `lastPlayedDate = D`, `height > 0`,
and a claimed date with day gap at least 2 that is not already in the
player's push ledger, the push is rejected with `rollback_required`
carrying `heightLost = height`, `streakLost = streak`,
`daysMissed = gap - 1`, and the store records the death. -/
theorem gap_push_rollback_required :
    ∀ (s : Store) (lp d : String),
      s.player.lastPlayedDate = some lp →
      0 < s.player.height →
      isValidDateString lp = true →
      2 ≤ daysBetween lp d →
      hasPlayedDate s d = false →
      pushHandler s d =
        (PushResult.rollbackRequired s.player.height s.player.streak
           (daysBetween lp d - 1),
         recordDeath s s.player.height s.player.streak
           (daysBetween lp d - 1)) := by
  intro s lp d hlp hh hv hgap hnp
  have hsame : isSameDay lp d = false := by
    cases hsd : isSameDay lp d
    · rfl
    · exfalso
      have he : lp = d := by simpa [isSameDay] using hsd
      rw [← he, daysBetween_self lp hv] at hgap
      omega
  have hcons : isConsecutiveDay lp d = false := by
    cases hc : isConsecutiveDay lp d
    · rfl
    · exfalso
      have h1 := isConsecutiveDay_daysBetween lp d hv hc
      omega
  simp [pushHandler, hnp, hlp, hsame, hcons, hh]

/-- Witness for C4 (amended): a two-day gap on a concrete store. -/
theorem gap_push_rollback_required_witness :
    pushHandler pushedOnce "2024-01-03" =
      (PushResult.rollbackRequired 1 1 1, recordDeath pushedOnce 1 1 1) := by
  rw [gap_push_rollback_required pushedOnce "2024-01-01" "2024-01-03"
    (by decide) (by decide) (by decide) (by decide) (by decide)]
  decide

/-- Counterexample to C9 as stated: for a freshly registered player the
GET response field `hasPlayedToday` is the JSON value `null` (the
JavaScript `&&` of a `null` `last_played_date`), not the boolean
`false`. -/
theorem fresh_get_hasPlayedToday_null_cex :
    (getHandler initStore.player "2024-01-01").hasPlayedToday =
      JVal.jnull ∧
    JVal.jnull ≠ JVal.jbool false := by
  decide

/-- C9 (amended): for a freshly registered player, a GET with
`localDate = "2024-01-01"` returns the falsy value `null` for
`hasPlayedToday` (not the boolean `false`); a push with that date
returns success with `height = 1`, `streak = 1`; a second push with the
same date returns `already_played_today`. -/
theorem fresh_register_scenario :
    (getHandler initStore.player "2024-01-01").hasPlayedToday =
      JVal.jnull ∧
    (getHandler initStore.player "2024-01-01").needsRollback = false ∧
    (pushHandler initStore "2024-01-01").1 = PushResult.success 1 1 ∧
    (pushHandler (pushHandler initStore "2024-01-01").2 "2024-01-01").1 =
      PushResult.alreadyPlayed := by
  decide
